import Mathlib

/-!
Verification of the `OrbitControls` camera controller of the vglx engine
(`src/nodes/orbit_controls.cpp`, `include/vglx/nodes/orbit_controls.hpp`,
`include/vglx/math/vector2.hpp`, `include/vglx/math/vector3.hpp`).

Scalar floats are embedded as rationals (`ℚ`): every claim under scrutiny is
an exact algebraic statement about the update rules, not about rounding.
Components that belong to the repository but are not among the provided
sources (the `Spherical` value type with `MakeSafe`/`ToVector3`, and the
camera's `Right`/`Up`/`LookAt` primitives) are modelled from the
specification; each such definition is marked in its doc comment.
-/

namespace Vglx

/-- 2D vector with rational components, embedding `vglx::Vector2`
(`include/vglx/math/vector2.hpp`). -/
structure Vector2 where
  x : ℚ
  y : ℚ
  deriving DecidableEq, Repr

/-- Componentwise subtraction, embedding `operator-(Vector2, Vector2)`. -/
instance : Sub Vector2 := ⟨fun a b => ⟨a.x - b.x, a.y - b.y⟩⟩

theorem Vector2.sub_def (a b : Vector2) : a - b = ⟨a.x - b.x, a.y - b.y⟩ := rfl

/-- 3D vector with rational components, embedding `vglx::Vector3`
(`include/vglx/math/vector3.hpp`). -/
structure Vector3 where
  x : ℚ
  y : ℚ
  z : ℚ
  deriving DecidableEq, Repr

namespace Vector3

/-- Embeds `Vector3::Zero()`. -/
def Zero : Vector3 := ⟨0, 0, 0⟩

/-- Componentwise addition, embedding `operator+(Vector3, Vector3)`. -/
instance : Add Vector3 := ⟨fun a b => ⟨a.x + b.x, a.y + b.y, a.z + b.z⟩⟩

/-- Componentwise subtraction, embedding `operator-(Vector3, Vector3)`. -/
instance : Sub Vector3 := ⟨fun a b => ⟨a.x - b.x, a.y - b.y, a.z - b.z⟩⟩

/-- Scalar multiplication on the right, embedding `operator*(Vector3, float)`. -/
instance : HMul Vector3 ℚ Vector3 := ⟨fun v n => ⟨v.x * n, v.y * n, v.z * n⟩⟩

theorem add_def (a b : Vector3) : a + b = ⟨a.x + b.x, a.y + b.y, a.z + b.z⟩ := rfl

theorem sub_entries (a b : Vector3) : a - b = ⟨a.x - b.x, a.y - b.y, a.z - b.z⟩ := rfl

theorem smul_def (v : Vector3) (n : ℚ) : v * n = ⟨v.x * n, v.y * n, v.z * n⟩ := rfl

theorem smul_zero (v : Vector3) : v * (0 : ℚ) = Zero := by
  simp [smul_def, Zero]

theorem sub_self (v : Vector3) : v - v = Zero := by
  simp [sub_entries, Zero]

theorem zero_smul (n : ℚ) : Zero * n = Zero := by
  simp [smul_def, Zero]

theorem sub_zero (v : Vector3) : v - Zero = v := by
  simp [sub_entries, Zero]

end Vector3

/-- Spherical coordinate value type, embedding `vglx::Spherical`
(used by `orbit_controls.cpp`; its header is not among the provided
sources). Fields follow the source's member names: `radius`, `theta`
(polar angle), `phi` (azimuthal angle). -/
structure Spherical where
  radius : ℚ
  theta : ℚ
  phi : ℚ
  deriving DecidableEq, Repr

/-- Mouse button identifier, embedding `vglx::MouseButton` as used in
`orbit_controls.cpp` (`None`, `Left`, `Right`; the spec's enum is
`{None, Left, Right, …}`, so a further member is included). -/
inductive MouseButton where
  | None
  | Left
  | Right
  | Middle
  deriving DecidableEq, Repr

/-- Mouse event type tag, embedding `MouseEvent::Type` as used in
`orbit_controls.cpp` (`Moved`, `ButtonPressed`, `ButtonReleased`,
`Scrolled`). -/
inductive MouseEventType where
  | Moved
  | ButtonPressed
  | ButtonReleased
  | Scrolled
  deriving DecidableEq, Repr

/-- Mouse event payload as read by `OrbitControls::OnMouseEvent`:
`type`, `position`, `button`, and a 2D `scroll` delta of which the
vertical component is consumed. -/
structure MouseEvent where
  type : MouseEventType
  position : Vector2
  button : MouseButton
  scroll : Vector2
  deriving DecidableEq, Repr

/-- Camera pose as far as the controller observes and mutates it:
`OnUpdate` writes `transform.SetPosition(...)` and `LookAt(target)`.
Modelled from the spec: the camera header is not among the provided
sources; `lookAt(p)` "reorients so the camera's forward axis points at
the given world point", so the orientation committed by the controller
is recorded as the look-at target. -/
structure Camera where
  position : Vector3
  lookTarget : Vector3
  deriving DecidableEq, Repr

/-- External collaborators and undocumented constants the controller
depends on, kept abstract so every theorem holds for any faithful
instantiation.

Modelled from the spec: `Spherical::ToVector3` ("standard
spherical-to-Cartesian conversion", a pure function of the fields,
using `sin`/`cos` which have no exact rational form) is the abstract
`ToVector3`; the camera's `Right()`/`Up()` ("unit basis vectors derived
from current orientation") are the abstract `right`/`up`; `eps` is the
polar-angle safety margin ("ε small, e.g. 1e-3 rad"; the spec notes the
exact literal is undocumented and should be a tunable) and `piV` the
scalar standing for π in the clamp bound. -/
structure Ctx where
  ToVector3 : Spherical → Vector3
  right : Camera → Vector3
  up : Camera → Vector3
  eps : ℚ
  piV : ℚ

/-- Modelled from the spec: `Spherical::MakeSafe` (its header is not
among the provided sources) "clamps `polarAngle` into `[ε, π−ε]` ...
in place", leaving the other fields alone. -/
def Spherical.MakeSafe (c : Ctx) (s : Spherical) : Spherical :=
  { s with theta := max c.eps (min (c.piV - c.eps) s.theta) }

/-- Controller state, embedding `OrbitControls::Impl`
(`orbit_controls.cpp`). The camera the `Impl` points to is inlined as a
field, since the controller is its only writer. -/
structure State where
  camera : Camera
  spherical : Spherical
  target : Vector3
  curr_pos : Vector2
  prev_pos : Vector2
  curr_button : MouseButton
  orbit_speed : ℚ
  pan_speed : ℚ
  zoom_speed : ℚ
  curr_scroll_offset : ℚ
  deriving DecidableEq, Repr

/-- Constructor parameters, embedding `OrbitControls::Parameters` with
its default member initializers. -/
structure Parameters where
  radius : ℚ := 1
  pitch : ℚ := 0
  yaw : ℚ := 0
  orbit_speed : ℚ := 1 / 100
  pan_speed : ℚ := 1 / 1000
  zoom_speed : ℚ := 1 / 4
  deriving DecidableEq, Repr

/-- Embeds the `OrbitControls` constructor together with the `Impl`
default member initializers: spherical from `radius`/`yaw`/`pitch`,
speeds from the parameter bundle, target at the origin, pointer
positions zero, no held button, no pending scroll. -/
def OrbitControls.construct (camera : Camera) (params : Parameters) : State :=
  { camera := camera
    spherical := { radius := params.radius, theta := params.pitch, phi := params.yaw }
    target := Vector3.Zero
    curr_pos := ⟨0, 0⟩
    prev_pos := ⟨0, 0⟩
    curr_button := MouseButton.None
    orbit_speed := params.orbit_speed
    pan_speed := params.pan_speed
    zoom_speed := params.zoom_speed
    curr_scroll_offset := 0 }

/-- The pointer offset computed at the top of `Impl::OnUpdate`:
`offset = curr_pos - prev_pos`. -/
def offsetOf (st : State) : Vector2 :=
  st.curr_pos - st.prev_pos

/-- The orbit branch of `Impl::OnUpdate`: when the left button is held,
`spherical.phi -= offset.x * orbit_speed` and
`spherical.theta += offset.y * orbit_speed`. -/
def orbitStep (st : State) (offset : Vector2) : Spherical :=
  if st.curr_button = MouseButton.Left then
    { st.spherical with
        phi := st.spherical.phi - offset.x * st.orbit_speed
        theta := st.spherical.theta + offset.y * st.orbit_speed }
  else st.spherical

/-- The zoom branch of `Impl::OnUpdate`: when `curr_scroll_offset != 0`,
`radius -= curr_scroll_offset * zoom_speed`, then
`radius = max(0.1, radius)`, and the scroll offset is reset to `0`.
Returns the updated spherical together with the updated scroll offset. -/
def zoomStep (st : State) (sph : Spherical) : Spherical × ℚ :=
  if st.curr_scroll_offset ≠ 0 then
    ({ sph with radius := max (1 / 10) (sph.radius - st.curr_scroll_offset * st.zoom_speed) }, 0)
  else (sph, st.curr_scroll_offset)

/-- The pan branch of `Impl::OnUpdate`: when the right button is held,
`target -= (right * offset.x - up * offset.y) * (pan_speed * radius)`,
reading the camera's current basis vectors and the given (already
zoomed) radius. -/
def panStep (c : Ctx) (st : State) (offset : Vector2) (sph : Spherical) : Vector3 :=
  if st.curr_button = MouseButton.Right then
    st.target - (c.right st.camera * offset.x - c.up st.camera * offset.y)
      * (st.pan_speed * sph.radius)
  else st.target

/-- Embeds `OrbitControls::Impl::OnUpdate(delta)`: orbit, zoom, pan (in
that order), `prev_pos = curr_pos`, `spherical.MakeSafe()`, then the
camera commit `SetPosition(target + spherical.ToVector3())` and
`LookAt(target)`. The `delta` argument is `[[maybe_unused]]` in the
source and unused here. -/
def Impl.OnUpdate (c : Ctx) (st : State) (delta : ℚ) : State :=
  let offset := offsetOf st
  let sph1 := orbitStep st offset
  let z := zoomStep st sph1
  let target2 := panStep c st offset z.1
  let sph3 := Spherical.MakeSafe c z.1
  { st with
      spherical := sph3
      target := target2
      prev_pos := st.curr_pos
      curr_scroll_offset := z.2
      camera := { position := target2 + c.ToVector3 sph3, lookTarget := target2 } }

/-- Embeds `OrbitControls::OnMouseEvent(event)`: unconditionally record
`curr_pos = event.position`; on a press with no button held, latch the
event's button; on a release of the held button, clear the latch; on a
scroll, record `curr_scroll_offset = event.scroll.y`. The branches are
sequenced exactly as in the source. -/
def OrbitControls.OnMouseEvent (st : State) (e : MouseEvent) : State :=
  let st1 := { st with curr_pos := e.position }
  let st2 :=
    if e.type = MouseEventType.ButtonPressed ∧ st1.curr_button = MouseButton.None then
      { st1 with curr_button := e.button }
    else st1
  let st3 :=
    if e.type = MouseEventType.ButtonReleased ∧ e.button = st2.curr_button then
      { st2 with curr_button := MouseButton.None }
    else st2
  if e.type = MouseEventType.Scrolled then
    { st3 with curr_scroll_offset := e.scroll.y }
  else st3

/-- States reachable from a freshly constructed controller through any
interleaving of mouse events and frame updates. -/
inductive Reachable (c : Ctx) : State → Prop where
  | construct (camera : Camera) (params : Parameters) :
      Reachable c (OrbitControls.construct camera params)
  | mouse {st : State} (e : MouseEvent) :
      Reachable c st → Reachable c (OrbitControls.OnMouseEvent st e)
  | update {st : State} (delta : ℚ) :
      Reachable c st → Reachable c (Impl.OnUpdate c st delta)

/-! ### Helper lemmas about the update steps -/

/-- Neither branch of the orbit step touches the radius. -/
theorem orbitStep_radius (st : State) (offset : Vector2) :
    (orbitStep st offset).radius = st.spherical.radius := by
  unfold orbitStep
  split <;> rfl

/-- Neither branch of the orbit step touches the azimuth when the left
button is not held; the safety clamp never touches the azimuth. -/
theorem MakeSafe_radius (c : Ctx) (s : Spherical) :
    (Spherical.MakeSafe c s).radius = s.radius := rfl

theorem MakeSafe_phi (c : Ctx) (s : Spherical) :
    (Spherical.MakeSafe c s).phi = s.phi := rfl

/-- The clamp of the safety step is idempotent, whatever the bounds. -/
theorem clamp_idem (a b t : ℚ) :
    max a (min b (max a (min b t))) = max a (min b t) := by
  rcases le_total a b with hab | hab
  · rcases le_total a (min b t) with h1 | h1
    · rw [max_eq_right h1, min_eq_right (min_le_left b t), max_eq_right h1]
    · rw [max_eq_left h1, min_eq_right hab, max_self]
  · have h2 : min b t ≤ a := le_trans (min_le_left b t) hab
    rw [max_eq_left h2, min_eq_left hab, max_eq_left hab]

/-- `MakeSafe` is idempotent. -/
theorem MakeSafe_idem (c : Ctx) (s : Spherical) :
    Spherical.MakeSafe c (Spherical.MakeSafe c s) = Spherical.MakeSafe c s := by
  unfold Spherical.MakeSafe
  simp [clamp_idem]

/-- After any update the pending scroll offset is zero. -/
theorem OnUpdate_scroll (c : Ctx) (st : State) (d : ℚ) :
    (Impl.OnUpdate c st d).curr_scroll_offset = 0 := by
  unfold Impl.OnUpdate zoomStep
  split <;> simp_all

/-- An update leaves the current pointer position alone and copies it
into the previous pointer position. -/
theorem OnUpdate_pointer (c : Ctx) (st : State) (d : ℚ) :
    (Impl.OnUpdate c st d).curr_pos = st.curr_pos
      ∧ (Impl.OnUpdate c st d).prev_pos = st.curr_pos := ⟨rfl, rfl⟩

/-! ### C1: derived camera pose -/

/-- C1: immediately after any `OnUpdate`, the camera's position equals
`target + ToVector3(spherical)` for the state's own (post-update)
target and spherical coordinate — the pose is recomputed each frame,
never stored independently — and `LookAt(target)` has been invoked,
recorded as the camera's look target. -/
theorem derived_pose (c : Ctx) (st : State) (delta : ℚ) :
    (Impl.OnUpdate c st delta).camera.position
        = (Impl.OnUpdate c st delta).target
            + c.ToVector3 (Impl.OnUpdate c st delta).spherical
      ∧ (Impl.OnUpdate c st delta).camera.lookTarget
        = (Impl.OnUpdate c st delta).target :=
  ⟨rfl, rfl⟩

/-! ### C2: zoom radius floor -/

/-- C2: whenever a zoom is applied (`curr_scroll_offset ≠ 0`), the new
radius is the old radius decremented by `scroll · zoom_speed` and then
clamped from below at `0.1`, hence at least `0.1`. -/
theorem zoom_radius_floor (c : Ctx) (st : State) (d : ℚ)
    (h : st.curr_scroll_offset ≠ 0) :
    (Impl.OnUpdate c st d).spherical.radius
        = max (1 / 10)
            (st.spherical.radius - st.curr_scroll_offset * st.zoom_speed)
      ∧ (1 / 10 : ℚ) ≤ (Impl.OnUpdate c st d).spherical.radius := by
  have hr : (Impl.OnUpdate c st d).spherical.radius
      = max (1 / 10)
          (st.spherical.radius - st.curr_scroll_offset * st.zoom_speed) := by
    show (Spherical.MakeSafe c (zoomStep st (orbitStep st (offsetOf st))).1).radius = _
    rw [MakeSafe_radius]
    unfold zoomStep
    rw [if_pos h]
    simp [orbitStep_radius]
  exact ⟨hr, hr ▸ le_max_left _ _⟩

/-! ### C4: held-button latch -/

/-- C4: the held-button latch. A press latches the event's button only
when no button is held (first-press-wins: a second button pressed while
one is held changes nothing); a release clears the latch exactly when
the released button matches the held one; other events leave the latch
alone. -/
theorem button_latch (st : State) (e : MouseEvent) :
    (OrbitControls.OnMouseEvent st e).curr_button =
      if e.type = MouseEventType.ButtonPressed ∧ st.curr_button = MouseButton.None
        then e.button
      else if e.type = MouseEventType.ButtonReleased ∧ e.button = st.curr_button
        then MouseButton.None
      else st.curr_button := by
  obtain ⟨t, p, b, s⟩ := e
  cases t <;> simp [OrbitControls.OnMouseEvent] <;> split_ifs <;> simp_all

/-! ### C10: every event records the pointer position -/

/-- C10: `OnMouseEvent` overwrites `curr_pos` with the event's position
for every event type, so the offset used by the next `OnUpdate` is
measured from the event's position, whatever kind of event carried it. -/
theorem event_records_position (st : State) (e : MouseEvent) :
    (OrbitControls.OnMouseEvent st e).curr_pos = e.position
      ∧ offsetOf (OrbitControls.OnMouseEvent st e)
        = e.position - st.prev_pos := by
  obtain ⟨t, p, b, s⟩ := e
  cases t <;> simp [OrbitControls.OnMouseEvent, offsetOf] <;> split_ifs <;>
    exact ⟨rfl, rfl⟩

/-! ### C3: left-drag orbit deltas -/

/-- C3: with the left button held, a single `OnUpdate` changes the
azimuth by exactly `−offset.x · orbit_speed` and the polar angle by
exactly `+offset.y · orbit_speed` before the safety clamp (the final
azimuth is exactly that value, the final polar angle is its clamp), and
the whole update is independent of the `delta` argument. -/
theorem left_drag (c : Ctx) (st : State) (d d₁ d₂ : ℚ)
    (h : st.curr_button = MouseButton.Left) :
    (orbitStep st (offsetOf st)).phi
        = st.spherical.phi - (offsetOf st).x * st.orbit_speed
      ∧ (orbitStep st (offsetOf st)).theta
        = st.spherical.theta + (offsetOf st).y * st.orbit_speed
      ∧ Impl.OnUpdate c st d₁ = Impl.OnUpdate c st d₂
      ∧ (Impl.OnUpdate c st d).spherical.phi
        = st.spherical.phi - (offsetOf st).x * st.orbit_speed
      ∧ (Impl.OnUpdate c st d).spherical.theta
        = max c.eps (min (c.piV - c.eps)
            (st.spherical.theta + (offsetOf st).y * st.orbit_speed)) := by
  have horb : orbitStep st (offsetOf st)
      = { st.spherical with
            phi := st.spherical.phi - (offsetOf st).x * st.orbit_speed
            theta := st.spherical.theta + (offsetOf st).y * st.orbit_speed } := by
    unfold orbitStep
    rw [if_pos h]
  have hzoom_phi : (zoomStep st (orbitStep st (offsetOf st))).1.phi
      = (orbitStep st (offsetOf st)).phi := by
    unfold zoomStep
    split <;> rfl
  have hzoom_theta : (zoomStep st (orbitStep st (offsetOf st))).1.theta
      = (orbitStep st (offsetOf st)).theta := by
    unfold zoomStep
    split <;> rfl
  refine ⟨by rw [horb], by rw [horb], rfl, ?_, ?_⟩
  · show (Spherical.MakeSafe c (zoomStep st (orbitStep st (offsetOf st))).1).phi = _
    rw [MakeSafe_phi, hzoom_phi, horb]
  · show (Spherical.MakeSafe c (zoomStep st (orbitStep st (offsetOf st))).1).theta = _
    unfold Spherical.MakeSafe
    rw [show ({ (zoomStep st (orbitStep st (offsetOf st))).1 with
          theta := max c.eps (min (c.piV - c.eps)
            (zoomStep st (orbitStep st (offsetOf st))).1.theta) } : Spherical).theta
        = max c.eps (min (c.piV - c.eps)
            (zoomStep st (orbitStep st (offsetOf st))).1.theta) from rfl]
    rw [hzoom_theta, horb]

/-! ### C5: right-drag pan with the already-zoomed radius -/

/-- C5: with the right button held, `OnUpdate` translates the target by
`target -= (right·offset.x − up·offset.y) · (pan_speed · radius)` using
the camera's current basis vectors, where the radius is the one
produced by the zoom step of the same frame: already clamped to `0.1`
when a scroll was pending, the unchanged radius otherwise. -/
theorem right_drag_pan (c : Ctx) (st : State) (d : ℚ)
    (h : st.curr_button = MouseButton.Right) :
    (Impl.OnUpdate c st d).target
        = st.target
            - (c.right st.camera * (offsetOf st).x
                - c.up st.camera * (offsetOf st).y)
              * (st.pan_speed * (zoomStep st (orbitStep st (offsetOf st))).1.radius)
      ∧ (zoomStep st (orbitStep st (offsetOf st))).1.radius
        = (if st.curr_scroll_offset ≠ 0
            then max (1 / 10)
              (st.spherical.radius - st.curr_scroll_offset * st.zoom_speed)
            else st.spherical.radius) := by
  constructor
  · show panStep c st (offsetOf st) (zoomStep st (orbitStep st (offsetOf st))).1 = _
    unfold panStep
    rw [if_pos h]
  · unfold zoomStep
    split <;> simp [orbitStep_radius]

/-- `OnMouseEvent` only writes the pointer position, the button latch
and the scroll offset; every other field of the controller state is
untouched. -/
theorem OnMouseEvent_fields (st : State) (e : MouseEvent) :
    (OrbitControls.OnMouseEvent st e).spherical = st.spherical
      ∧ (OrbitControls.OnMouseEvent st e).zoom_speed = st.zoom_speed
      ∧ (OrbitControls.OnMouseEvent st e).pan_speed = st.pan_speed
      ∧ (OrbitControls.OnMouseEvent st e).orbit_speed = st.orbit_speed
      ∧ (OrbitControls.OnMouseEvent st e).target = st.target
      ∧ (OrbitControls.OnMouseEvent st e).prev_pos = st.prev_pos
      ∧ (OrbitControls.OnMouseEvent st e).camera = st.camera := by
  obtain ⟨t, p, b, s⟩ := e
  cases t <;> simp [OrbitControls.OnMouseEvent] <;> split_ifs <;> simp

/-- A `Scrolled` event overwrites the pending scroll offset with the
event's vertical scroll component, whatever was pending before. -/
theorem OnMouseEvent_scrolled (st : State) (e : MouseEvent)
    (h : e.type = MouseEventType.Scrolled) :
    (OrbitControls.OnMouseEvent st e).curr_scroll_offset = e.scroll.y := by
  obtain ⟨t, p, b, s⟩ := e
  simp only at h
  subst h
  simp [OrbitControls.OnMouseEvent]

/-! ### C7: scroll recording and one-shot consumption -/

/-- C7: a `Scrolled` event overwrites the pending scroll offset with
the event's vertical scroll component, and the pending offset is
consumed exactly once: in the spec's scenario (`scroll.y = 4`,
`zoom_speed = 0.25`, radius at least `1.1` so the floor is not hit) the
next `OnUpdate` decreases the radius by exactly `1` and leaves the
pending offset at `0`. -/
theorem scroll_consumed (c : Ctx) (st : State) (e : MouseEvent) (d : ℚ)
    (h1 : e.type = MouseEventType.Scrolled) (h2 : e.scroll.y = 4)
    (h3 : st.zoom_speed = 1 / 4) (h4 : (11 / 10 : ℚ) ≤ st.spherical.radius) :
    (OrbitControls.OnMouseEvent st e).curr_scroll_offset = e.scroll.y
      ∧ (Impl.OnUpdate c (OrbitControls.OnMouseEvent st e) d).spherical.radius
        = st.spherical.radius - 1
      ∧ (Impl.OnUpdate c (OrbitControls.OnMouseEvent st e) d).curr_scroll_offset
        = 0 := by
  have hev : (OrbitControls.OnMouseEvent st e).curr_scroll_offset = e.scroll.y :=
    OnMouseEvent_scrolled st e h1
  obtain ⟨hsph, hzs, -⟩ := OnMouseEvent_fields st e
  have hne : (OrbitControls.OnMouseEvent st e).curr_scroll_offset ≠ 0 := by
    rw [hev, h2]
    norm_num
  obtain ⟨hrad, -⟩ := zoom_radius_floor c (OrbitControls.OnMouseEvent st e) d hne
  refine ⟨hev, ?_, OnUpdate_scroll c _ d⟩
  rw [hrad, hev, h2, hsph, hzs, h3]
  rw [show (4 : ℚ) * (1 / 4) = 1 by norm_num]
  exact max_eq_right (by linarith)

/-! ### C8: polar-angle safety clamp -/

/-- C8: `MakeSafe` clamps the polar angle into `[ε, π−ε]` in place and
is idempotent; it runs in every `OnUpdate` between the gesture steps
and the camera commit, so after every update the stored polar angle
lies in the safe interval. The hypothesis is the sanity condition that
the interval is nonempty (`ε ≤ π − ε`). -/
theorem make_safe_clamps (c : Ctx) (s : Spherical) (st : State) (d : ℚ)
    (h : c.eps ≤ c.piV - c.eps) :
    c.eps ≤ (Spherical.MakeSafe c s).theta
      ∧ (Spherical.MakeSafe c s).theta ≤ c.piV - c.eps
      ∧ Spherical.MakeSafe c (Spherical.MakeSafe c s) = Spherical.MakeSafe c s
      ∧ (Impl.OnUpdate c st d).spherical
        = Spherical.MakeSafe c (zoomStep st (orbitStep st (offsetOf st))).1
      ∧ c.eps ≤ (Impl.OnUpdate c st d).spherical.theta
      ∧ (Impl.OnUpdate c st d).spherical.theta ≤ c.piV - c.eps := by
  have bound : ∀ s' : Spherical,
      c.eps ≤ (Spherical.MakeSafe c s').theta
        ∧ (Spherical.MakeSafe c s').theta ≤ c.piV - c.eps := fun s' =>
    ⟨le_max_left _ _, max_le h (min_le_left _ _)⟩
  exact ⟨(bound s).1, (bound s).2, MakeSafe_idem c s, rfl,
    (bound _).1, (bound _).2⟩

/-! ### C9: no-input frames are idempotent -/

/-- A state whose pointer offset is zero, whose pending scroll is
consumed, whose spherical coordinate is already safe and whose camera
already holds the derived pose is a fixed point of `OnUpdate`. -/
theorem OnUpdate_fix (c : Ctx) (d : ℚ) (sph : Spherical) (tgt : Vector3)
    (cp : Vector2) (btn : MouseButton) (os ps zs : ℚ)
    (h3 : Spherical.MakeSafe c sph = sph) :
    Impl.OnUpdate c
        { camera := { position := tgt + c.ToVector3 sph, lookTarget := tgt }
          spherical := sph, target := tgt, curr_pos := cp, prev_pos := cp
          curr_button := btn, orbit_speed := os, pan_speed := ps
          zoom_speed := zs, curr_scroll_offset := 0 } d
      = { camera := { position := tgt + c.ToVector3 sph, lookTarget := tgt }
          spherical := sph, target := tgt, curr_pos := cp, prev_pos := cp
          curr_button := btn, orbit_speed := os, pan_speed := ps
          zoom_speed := zs, curr_scroll_offset := 0 } := by
  obtain ⟨r, th, ph⟩ := sph
  obtain ⟨tx, ty, tz⟩ := tgt
  obtain ⟨px, py⟩ := cp
  simp only [Impl.OnUpdate, offsetOf, orbitStep, zoomStep, panStep,
    Vector2.sub_def, Vector3.sub_entries, Vector3.smul_def, Vector3.add_def]
  simp [h3]

/-- C9: a frame with no intervening pointer events changes nothing:
running `OnUpdate` twice in a row from any state yields the same
controller state (camera pose and orientation, spherical coordinate
and target included) as running it once, because `prev_pos` is set to
`curr_pos` at the end of each frame and the scroll delta is consumed. -/
theorem no_input_frame_idempotent (c : Ctx) (st : State) (d₁ d₂ : ℚ) :
    Impl.OnUpdate c (Impl.OnUpdate c st d₁) d₂ = Impl.OnUpdate c st d₁ := by
  have hz : (zoomStep st (orbitStep st (offsetOf st))).2 = 0 := by
    unfold zoomStep
    split <;> simp_all
  have e1 : Impl.OnUpdate c st d₁
      = { camera :=
            { position := panStep c st (offsetOf st)
                  (zoomStep st (orbitStep st (offsetOf st))).1
                + c.ToVector3 (Spherical.MakeSafe c
                    (zoomStep st (orbitStep st (offsetOf st))).1)
              lookTarget := panStep c st (offsetOf st)
                  (zoomStep st (orbitStep st (offsetOf st))).1 }
          spherical := Spherical.MakeSafe c
              (zoomStep st (orbitStep st (offsetOf st))).1
          target := panStep c st (offsetOf st)
              (zoomStep st (orbitStep st (offsetOf st))).1
          curr_pos := st.curr_pos, prev_pos := st.curr_pos
          curr_button := st.curr_button, orbit_speed := st.orbit_speed
          pan_speed := st.pan_speed, zoom_speed := st.zoom_speed
          curr_scroll_offset := (zoomStep st (orbitStep st (offsetOf st))).2 } :=
    rfl
  rw [e1, hz]
  exact OnUpdate_fix c d₂ _ _ st.curr_pos st.curr_button st.orbit_speed
    st.pan_speed st.zoom_speed (MakeSafe_idem c _)

/-! ### C6: which gesture conditions can coincide -/

/-- C6 (counterexample): no controller state — reachable or not — makes
the orbit condition (`curr_button = Left`), the pan condition
(`curr_button = Right`) and the zoom condition simultaneously true:
the first two test the same single latch for different values. -/
theorem orbit_pan_zoom_never_simultaneous :
    ¬ ∃ (c : Ctx) (st : State), Reachable c st
        ∧ st.curr_button = MouseButton.Left
        ∧ st.curr_button = MouseButton.Right
        ∧ st.curr_scroll_offset ≠ 0 := by
  rintro ⟨c, st, -, hL, hR, -⟩
  rw [hL] at hR
  exact MouseButton.noConfusion hR

/-- Camera at the origin, used to instantiate the abstract context. -/
def sampleCamera : Camera := { position := Vector3.Zero, lookTarget := Vector3.Zero }

/-- A concrete, computable instantiation of the abstract collaborators:
some conversion function, some fixed basis vectors, `ε = 1/1000` and a
rational stand-in for π. -/
def sampleCtx : Ctx :=
  { ToVector3 := fun s => ⟨s.radius, s.theta, s.phi⟩
    right := fun _ => ⟨1, 0, 0⟩
    up := fun _ => ⟨0, 1, 0⟩
    eps := 1 / 1000
    piV := 355 / 113 }

/-- A freshly constructed controller with all default parameters. -/
def sampleState : State := OrbitControls.construct sampleCamera {}

/-- A press of the given button at the origin. -/
def pressEvent (b : MouseButton) : MouseEvent :=
  { type := MouseEventType.ButtonPressed, position := ⟨0, 0⟩
    button := b, scroll := ⟨0, 0⟩ }

/-- A scroll tick with vertical component 4. -/
def scrollEvent : MouseEvent :=
  { type := MouseEventType.Scrolled, position := ⟨0, 0⟩
    button := MouseButton.None, scroll := ⟨0, 4⟩ }

/-- C6 (amended): in a reachable state the orbit condition can coincide
with the zoom condition, and the pan condition can coincide with the
zoom condition (scrolling while dragging); but the orbit and pan
conditions are mutually exclusive, because both test the single held
button. -/
theorem drag_zoom_conditions_coincide (c : Ctx) :
    (∃ st, Reachable c st ∧ st.curr_button = MouseButton.Left
        ∧ st.curr_scroll_offset ≠ 0)
      ∧ (∃ st, Reachable c st ∧ st.curr_button = MouseButton.Right
        ∧ st.curr_scroll_offset ≠ 0)
      ∧ ∀ st : State,
        ¬ (st.curr_button = MouseButton.Left
            ∧ st.curr_button = MouseButton.Right) := by
  refine ⟨⟨OrbitControls.OnMouseEvent
        (OrbitControls.OnMouseEvent sampleState (pressEvent MouseButton.Left))
        scrollEvent, ?_, by decide, by decide⟩,
      ⟨OrbitControls.OnMouseEvent
        (OrbitControls.OnMouseEvent sampleState (pressEvent MouseButton.Right))
        scrollEvent, ?_, by decide, by decide⟩, ?_⟩
  · exact Reachable.mouse scrollEvent
      (Reachable.mouse (pressEvent MouseButton.Left)
        (Reachable.construct sampleCamera {}))
  · exact Reachable.mouse scrollEvent
      (Reachable.mouse (pressEvent MouseButton.Right)
        (Reachable.construct sampleCamera {}))
  · rintro st ⟨hL, hR⟩
    rw [hL] at hR
    exact MouseButton.noConfusion hR

/-! ### Concrete witness states -/

/-- The default controller after one scroll tick of 4. -/
def zoomedState : State := OrbitControls.OnMouseEvent sampleState scrollEvent

/-- The default controller mid left-drag: left button latched, pointer
moved to `(100, 0)`. -/
def leftDragState : State :=
  { sampleState with curr_button := MouseButton.Left, curr_pos := ⟨100, 0⟩ }

/-- The default controller mid right-drag with a pending scroll. -/
def rightDragState : State :=
  { sampleState with
      curr_button := MouseButton.Right
      curr_pos := ⟨3, 4⟩
      curr_scroll_offset := 2 }

/-- A controller constructed with radius 5 and default speeds. -/
def bigState : State := OrbitControls.construct sampleCamera { radius := 5 }

/-- A concrete spherical coordinate. -/
def sampleSph : Spherical := ⟨1, 2, 3⟩

/-- Witness for the zoom floor: the default state with a pending scroll
of 4 zooms `radius = 1` down to the clamp value `0.1`. -/
theorem zoom_radius_floor_witness :
    zoomedState.curr_scroll_offset ≠ 0
      ∧ ((Impl.OnUpdate sampleCtx zoomedState 1).spherical.radius
          = max (1 / 10)
              (zoomedState.spherical.radius
                - zoomedState.curr_scroll_offset * zoomedState.zoom_speed)
        ∧ (1 / 10 : ℚ)
          ≤ (Impl.OnUpdate sampleCtx zoomedState 1).spherical.radius) :=
  ⟨by decide, zoom_radius_floor sampleCtx zoomedState 1 (by decide)⟩

/-- Witness for the left-drag law at a pointer offset of `(100, 0)`. -/
theorem left_drag_witness :
    leftDragState.curr_button = MouseButton.Left
      ∧ ((orbitStep leftDragState (offsetOf leftDragState)).phi
          = leftDragState.spherical.phi
              - (offsetOf leftDragState).x * leftDragState.orbit_speed
        ∧ (orbitStep leftDragState (offsetOf leftDragState)).theta
          = leftDragState.spherical.theta
              + (offsetOf leftDragState).y * leftDragState.orbit_speed
        ∧ Impl.OnUpdate sampleCtx leftDragState 0
          = Impl.OnUpdate sampleCtx leftDragState 7
        ∧ (Impl.OnUpdate sampleCtx leftDragState 1).spherical.phi
          = leftDragState.spherical.phi
              - (offsetOf leftDragState).x * leftDragState.orbit_speed
        ∧ (Impl.OnUpdate sampleCtx leftDragState 1).spherical.theta
          = max sampleCtx.eps (min (sampleCtx.piV - sampleCtx.eps)
              (leftDragState.spherical.theta
                + (offsetOf leftDragState).y * leftDragState.orbit_speed))) :=
  ⟨by decide, left_drag sampleCtx leftDragState 1 0 7 (by decide)⟩

/-- Witness for the pan law at offset `(3, 4)` with a pending scroll,
showing the pan reads the already-zoomed radius. -/
theorem right_drag_pan_witness :
    rightDragState.curr_button = MouseButton.Right
      ∧ ((Impl.OnUpdate sampleCtx rightDragState 1).target
          = rightDragState.target
              - (sampleCtx.right rightDragState.camera
                    * (offsetOf rightDragState).x
                  - sampleCtx.up rightDragState.camera
                    * (offsetOf rightDragState).y)
                * (rightDragState.pan_speed
                    * (zoomStep rightDragState
                        (orbitStep rightDragState
                          (offsetOf rightDragState))).1.radius)
        ∧ (zoomStep rightDragState
              (orbitStep rightDragState (offsetOf rightDragState))).1.radius
          = (if rightDragState.curr_scroll_offset ≠ 0
              then max (1 / 10)
                (rightDragState.spherical.radius
                  - rightDragState.curr_scroll_offset
                    * rightDragState.zoom_speed)
              else rightDragState.spherical.radius)) :=
  ⟨by decide, right_drag_pan sampleCtx rightDragState 1 (by decide)⟩

/-- Witness for the scroll scenario: radius 5, scroll tick 4, default
zoom speed 1/4 — the radius drops to 4 and the pending delta to 0. -/
theorem scroll_consumed_witness :
    scrollEvent.type = MouseEventType.Scrolled
      ∧ scrollEvent.scroll.y = 4
      ∧ bigState.zoom_speed = 1 / 4
      ∧ (11 / 10 : ℚ) ≤ bigState.spherical.radius
      ∧ ((OrbitControls.OnMouseEvent bigState scrollEvent).curr_scroll_offset
          = scrollEvent.scroll.y
        ∧ (Impl.OnUpdate sampleCtx
              (OrbitControls.OnMouseEvent bigState scrollEvent) 1).spherical.radius
          = bigState.spherical.radius - 1
        ∧ (Impl.OnUpdate sampleCtx
              (OrbitControls.OnMouseEvent bigState scrollEvent) 1).curr_scroll_offset
          = 0) :=
  ⟨by decide, by decide, rfl, (by norm_num : (11 / 10 : ℚ) ≤ 5),
    scroll_consumed sampleCtx bigState scrollEvent 1
      (by decide) (by decide) rfl (by norm_num : (11 / 10 : ℚ) ≤ 5)⟩

/-- Witness for the safety clamp with `ε = 1/1000` and the rational
stand-in `355/113` for π. -/
theorem make_safe_clamps_witness :
    sampleCtx.eps ≤ sampleCtx.piV - sampleCtx.eps
      ∧ (sampleCtx.eps ≤ (Spherical.MakeSafe sampleCtx sampleSph).theta
        ∧ (Spherical.MakeSafe sampleCtx sampleSph).theta
          ≤ sampleCtx.piV - sampleCtx.eps
        ∧ Spherical.MakeSafe sampleCtx (Spherical.MakeSafe sampleCtx sampleSph)
          = Spherical.MakeSafe sampleCtx sampleSph
        ∧ (Impl.OnUpdate sampleCtx sampleState 1).spherical
          = Spherical.MakeSafe sampleCtx
              (zoomStep sampleState
                (orbitStep sampleState (offsetOf sampleState))).1
        ∧ sampleCtx.eps ≤ (Impl.OnUpdate sampleCtx sampleState 1).spherical.theta
        ∧ (Impl.OnUpdate sampleCtx sampleState 1).spherical.theta
          ≤ sampleCtx.piV - sampleCtx.eps) :=
  ⟨(by norm_num : (1 / 1000 : ℚ) ≤ 355 / 113 - 1 / 1000),
    make_safe_clamps sampleCtx sampleSph sampleState 1
      (by norm_num : (1 / 1000 : ℚ) ≤ 355 / 113 - 1 / 1000)⟩

end Vglx
